import Mathlib

/-!
Shallow embedding of the adaptive quiz engine of the championsprep backend
(files `app/api/v1/endpoints/quiz.py`, `app/api/v1/endpoints/student.py`,
`app/models/quiz.py`, `app/models/content.py`).

The database tables touched by those endpoints (`quiz_sessions`,
`user_question_attempts`, `ai_generated_content`) are modelled as in-memory
lists of rows; each endpoint handler becomes a pure function from the
database state (plus the request and the non-deterministic inputs the code
draws from the environment: fresh uuids, the current time, and the shuffle
order) to the new database state and an HTTP-level result.  Python floats
are modelled as rationals, Python `int` as `Int`/`Nat`, Python dicts with
insertion order as association lists, and raised `HTTPException`s as the
`Except` error branch.
-/

/-- One question object as stored inside the `content` JSON of an
`ai_generated_content` row. -/
structure Question where
  question_text : Option String := none
  options : List (String × String) := []
  correct_answer : Option String := none
  explanation : Option String := none
  difficulty : Option String := none
  marks : Int := 1
deriving DecidableEq, Repr

/-- The `content` column of an `ai_generated_content` row: a JSON array of
question objects, a single question object, or anything else (the code
checks `isinstance(content, list)` / `isinstance(content, dict)`). -/
inductive ContentVal where
  | arr (qs : List Question)
  | obj (q : Question)
  | other
deriving DecidableEq, Repr

/-- A row of the `ai_generated_content` table (the fields the quiz/student
endpoints read). -/
structure ContentRow where
  id : String
  content_type : String
  topic : Option String := none
  chapter_id : Option String := none
  difficulty_level : Option String := none
  content : ContentVal
deriving DecidableEq, Repr

/-- A row of the `user_question_attempts` table (the Attempt Ledger). -/
structure AttemptRow where
  id : String
  user_id : String
  content_id : String
  session_id : String
  is_correct : Bool
  time_taken_seconds : Int
  attempted_at : Nat
deriving DecidableEq, Repr

/-- The per-question answer record stored in a session's `answers` dict. -/
structure AnswerRecord where
  selected_answer : String
  is_correct : Bool
  time_spent : Int
  answered_at : Nat
deriving DecidableEq, Repr

/-- A row of the `quiz_sessions` table.  Timestamps are modelled as natural
numbers (seconds); the float columns written at submit time are rationals. -/
structure SessionRow where
  id : String
  user_id : String
  quiz_type : String
  chapter_id : Option String := none
  topic_id : Option String := none
  difficulty : Option String := none
  total_questions : Nat
  time_limit_minutes : Int
  started_at : Nat
  status : String
  questions : List String
  current_question_index : Nat
  answers : List (String × AnswerRecord)
  is_adaptive : Bool
  current_difficulty : String
  updated_at : Option Nat := none
  completed_at : Option Nat := none
  correct_answers : Option Nat := none
  accuracy : Option ℚ := none
  time_spent_minutes : Option ℚ := none
  coins_earned : Option Int := none
deriving DecidableEq, Repr

/-- The slice of the external store the quiz engine touches. -/
structure DB where
  quiz_sessions : List SessionRow
  user_question_attempts : List AttemptRow
  ai_generated_content : List ContentRow
deriving DecidableEq, Repr

/-- An `HTTPException` as raised by the handlers. -/
structure HttpError where
  status : Nat
  detail : String
deriving DecidableEq, Repr

/-- Embeds `session.data[0]` after `.eq("id", sid).eq("user_id", uid)`: the first
row matching both filters. -/
def findSession (db : DB) (sid uid : String) : Option SessionRow :=
  (db.quiz_sessions.filter (fun s => s.id == sid && s.user_id == uid)).head?

/-- Embeds `question.data[0]` after `.eq("id", content_id)` on `ai_generated_content`. -/
def findContent (db : DB) (cid : String) : Option ContentRow :=
  (db.ai_generated_content.filter (fun r => r.id == cid)).head?

/-- The caller's prior ledger rows: `.select("content_id").eq("user_id", uid)`. -/
def attemptedIds (db : DB) (uid : String) : List String :=
  (db.user_question_attempts.filter (fun a => a.user_id == uid)).map (fun a => a.content_id)

/-- Python dict assignment `d[k] = v` on an insertion-ordered dict: an
existing key keeps its position and gets the new value, a new key is
appended. -/
def dictSet (m : List (String × AnswerRecord)) (k : String) (v : AnswerRecord) :
    List (String × AnswerRecord) :=
  if m.any (fun p => p.1 == k) then
    m.map (fun p => if p.1 == k then (k, v) else p)
  else
    m ++ [(k, v)]

/-- Splitting a character list on the separator `"_q"`, the semantics of
Python `s.split("_q")`. -/
def splitQChars : List Char → List (List Char)
  | [] => [[]]
  | '_' :: 'q' :: rest => [] :: splitQChars rest
  | c :: rest =>
    match splitQChars rest with
    | [] => [[c]]
    | g :: gs => (c :: g) :: gs

/-- Embeds `question_id.split("_q")`. -/
def qidParts (qid : String) : List String :=
  (splitQChars qid.toList).map (fun cs => String.mk cs)

/-- Python `"_q" in question_id` (true iff the split has more than one part). -/
def qidHasQ (qid : String) : Bool := (qidParts qid).length > 1

/-- Embeds `question_id.split("_q")[0] if "_q" in question_id else question_id`. -/
def qidContentId (qid : String) : String :=
  if qidHasQ qid then (qidParts qid).headD "" else qid

/-- The value of a decimal digit character, else `none`. -/
def digitVal (c : Char) : Option Nat :=
  let n := c.toNat
  if 48 ≤ n ∧ n ≤ 57 then some (n - 48) else none

/-- Accumulating decimal parser over a digit list. -/
def digitsValGo : List Char → Nat → Option Nat
  | [], acc => some acc
  | c :: cs, acc =>
    match digitVal c with
    | some d => digitsValGo cs (acc * 10 + d)
    | none => none

/-- Parse a non-empty all-digit character list as a natural number. -/
def digitsVal : List Char → Option Nat
  | [] => none
  | l => digitsValGo l 0

/-- Python `int(s)` restricted to an optional leading minus sign followed by
decimal digits; `none` models the `ValueError` raised on anything else.
(The further forms Python's `int` accepts — surrounding whitespace, a `+`
sign, `_` digit separators — never arise from the id formats the code
produces and are not modelled.) -/
def pyToInt (s : String) : Option Int :=
  match s.toList with
  | '-' :: rest => (digitsVal rest).map (fun n => -(n : Int))
  | l => (digitsVal l).map (fun n => (n : Int))

/-- Python list subscription `l[i]` including negative-index wrap-around;
`none` models the `IndexError` raised when out of range. -/
def pyGet {α : Type} (l : List α) (i : Int) : Option α :=
  if 0 ≤ i then l[i.toNat]?
  else if (-i).toNat ≤ l.length then l[l.length - (-i).toNat]? else none

/-- Embeds `int(question_id.split("_q")[1]) if "_q" in question_id else 0`
(quiz.py:198-203 and quiz.py:139-145). -/
def qidIndex1 (qid : String) : Option Int :=
  if qidHasQ qid then ((qidParts qid)[1]?).bind pyToInt else some 0

/-- Embeds `int(question_id.split("_q")[-1]) if "_q" in question_id else 0`
(quiz.py:222). -/
def qidIndexLast (qid : String) : Option Int :=
  if qidHasQ qid then ((qidParts qid).getLast?).bind pyToInt else some 0

/-- Embeds `_calculate_time_limit` (quiz.py:507-514).  `time_per_question` is used
only when truthy, i.e. present and non-zero; `//` is Python floor
division, i.e. `Int.fdiv`. -/
def calculate_time_limit (quiz_type : String) (question_count : Int)
    (time_per_question : Option Int) : Int :=
  if quiz_type == "mock_exam" then 180
  else
    match time_per_question with
    | some t => if t != 0 then Int.fdiv (t * question_count) 60 else question_count * 2
    | none => question_count * 2

/-- Embeds `_calculate_coins` (quiz.py:554-571).  Python `int()` on the
non-negative products is truncation, i.e. the floor. -/
def calculate_coins (accuracy : ℚ) (quiz_type : String) : Int :=
  let base_coins : Int :=
    if quiz_type == "mcq" then 10
    else if quiz_type == "adaptive" then 15
    else if quiz_type == "timed" then 12
    else if quiz_type == "mock_exam" then 50
    else 10
  if accuracy ≥ 90 then base_coins * 2
  else if accuracy ≥ 75 then ⌊(base_coins : ℚ) * 1.5⌋
  else if accuracy ≥ 60 then base_coins
  else ⌊(base_coins : ℚ) * 0.5⌋

/-- Embeds `_get_performance_level` (quiz.py:590-599). -/
def get_performance_level (accuracy : ℚ) : String :=
  if accuracy ≥ 90 then "Excellent"
  else if accuracy ≥ 75 then "Good"
  else if accuracy ≥ 60 then "Average"
  else "Needs Improvement"

/-- The accuracy computed at submit (quiz.py:325):
`correct_answers / total_questions * 100 if total_questions > 0 else 0`. -/
def computeAccuracy (correct_answers : Nat) (total_questions : Nat) : ℚ :=
  if total_questions > 0 then (correct_answers : ℚ) / (total_questions : ℚ) * 100 else 0

/-- The question shape produced by `_format_question` (quiz.py:517-526). -/
structure FormattedQuestion where
  id : Option String
  question_text : Option String
  options : List (String × String)
  difficulty : Option String
  marks : Int
deriving DecidableEq, Repr

/-- Embeds `_format_question` applied to a question dict carrying the given `id`
key (or none). -/
def format_question (id : Option String) (q : Question) : FormattedQuestion :=
  ⟨id, q.question_text, q.options, q.difficulty, q.marks⟩

/-- A question from `_get_quiz_questions` after flattening: the synthesized
unique `id` plus the underlying question dict. -/
structure FlatQuestion where
  id : String
  q : Question
deriving DecidableEq, Repr

/-- Embeds `_get_quiz_questions` (quiz.py:439-504).  `random.shuffle` is modelled
by the `shuffle` parameter (instantiated with a concrete reordering when
evaluating).  Faithful to the source, `attempted_ids` is computed but *not*
used to filter the candidate pool: quiz.py:471-472 reads "Exclude attempted
(but we need to check content IDs, not row IDs) / For now, don't filter by
attempted since content is array."  The unused `quiz_type` parameter of the
source is dropped. -/
def get_quiz_questions (shuffle : List FlatQuestion → List FlatQuestion)
    (db : DB) (user_id : String)
    (topic chapter_id difficulty : Option String) (count : Nat) : List FlatQuestion :=
  let attempted_ids := attemptedIds db user_id
  let content_type := match difficulty with
    | some d => "mcq_" ++ d
    | none => "mcq_medium"
  let rows := db.ai_generated_content.filter (fun r =>
    r.content_type == content_type
    && (match topic with | some t => r.topic == some t | none => true)
    && (match chapter_id with | some c => r.chapter_id == some c | none => true))
  let _ := attempted_ids
  let all_questions := (rows.map (fun r =>
    match r.content with
    | .arr qs => (qs.enum).map (fun p => FlatQuestion.mk (r.id ++ "_q" ++ toString p.1) p.2)
    | .obj q => [FlatQuestion.mk r.id q]
    | .other => [])).flatten
  (shuffle all_questions).take count

/-- The validated body of `POST /quiz/start` (models/quiz.py:15-23). -/
structure QuizStartRequest where
  quiz_type : String
  topic : Option String := none
  chapter_id : Option String := none
  difficulty : Option String := none
  question_count : Nat := 10
  time_per_question : Option Int := none
deriving DecidableEq, Repr

/-- The raw JSON body of `POST /quiz/start` before pydantic validation
(absent fields are `none`). -/
structure RawQuizStartRequest where
  quiz_type : Option String := none
  topic : Option String := none
  chapter_id : Option String := none
  difficulty : Option String := none
  question_count : Option Int := none
  time_per_question : Option Int := none
deriving DecidableEq, Repr

/-- Pydantic validation of `QuizStartRequest`: `quiz_type` is required;
`question_count` defaults to 10 and must satisfy `ge=5, le=100`
(models/quiz.py:22); a violation is rejected with 422 before the handler
runs. -/
def validate_quiz_start (raw : RawQuizStartRequest) : Except HttpError QuizStartRequest :=
  match raw.quiz_type with
  | none => .error ⟨422, "Unprocessable Entity"⟩
  | some qt =>
    let qc := raw.question_count.getD 10
    if 5 ≤ qc ∧ qc ≤ 100 then
      .ok ⟨qt, raw.topic, raw.chapter_id, raw.difficulty, qc.toNat, raw.time_per_question⟩
    else .error ⟨422, "Unprocessable Entity"⟩

/-- The body of `QuizSessionResponse` as built by `start_quiz`. -/
structure StartResponse where
  session_id : String
  quiz_type : String
  total_questions : Nat
  time_limit_minutes : Int
  current_question : FormattedQuestion
  current_question_number : Nat
  can_skip : Bool
  can_go_back : Bool
  started_at : Nat
deriving DecidableEq, Repr

/-- Embeds `start_quiz` (quiz.py:33-101).  The whole handler body sits in a
`try/except Exception` that rewraps *any* exception — including the
`HTTPException(404)` raised for an empty candidate set — as an
`HTTPException(500, "Failed to start quiz: ...")`; `str(e)` on the 404 is
`"404: No questions found for selected criteria"`. -/
def start_quiz (shuffle : List FlatQuestion → List FlatQuestion) (db : DB)
    (user : String) (req : QuizStartRequest) (session_id : String) (now : Nat) :
    DB × Except HttpError StartResponse :=
  let questions := get_quiz_questions shuffle db user req.topic req.chapter_id
    req.difficulty req.question_count
  match questions with
  | [] => (db, .error ⟨500, "Failed to start quiz: 404: No questions found for selected criteria"⟩)
  | q0 :: _ =>
    let time_limit := calculate_time_limit req.quiz_type (questions.length : Int)
      req.time_per_question
    let session : SessionRow := {
      id := session_id
      user_id := user
      quiz_type := req.quiz_type
      chapter_id := req.chapter_id
      topic_id := req.topic
      difficulty := req.difficulty
      total_questions := questions.length
      time_limit_minutes := time_limit
      started_at := now
      status := "in_progress"
      questions := questions.map (fun fq => fq.id)
      current_question_index := 0
      answers := []
      is_adaptive := req.quiz_type == "adaptive"
      current_difficulty := match req.difficulty with
        | some d => if d == "" then "medium" else d
        | none => "medium" }
    let db' := { db with quiz_sessions := db.quiz_sessions ++ [session] }
    (db', .ok ⟨session_id, req.quiz_type, questions.length, time_limit,
      format_question (some q0.id) q0.q, 1,
      req.quiz_type != "mock_exam",
      !(req.quiz_type == "timed" || req.quiz_type == "mock_exam"), now⟩)

/-- Embeds `POST /quiz/start` end to end: pydantic validation, then the handler. -/
def handle_start_quiz (shuffle : List FlatQuestion → List FlatQuestion) (db : DB)
    (user : String) (raw : RawQuizStartRequest) (session_id : String) (now : Nat) :
    DB × Except HttpError StartResponse :=
  match validate_quiz_start raw with
  | .error e => (db, .error e)
  | .ok req => start_quiz shuffle db user req session_id now

/-- Embeds the tier computation of `_adjust_adaptive_difficulty` (quiz.py:529-551): with at least 3
answers, the recent accuracy over the last 3 (dict insertion order) decides
a promotion to `hard` (≥ 80, not already hard) or a demotion to `easy`
(≤ 40, not already easy); a changed tier is persisted onto the session row. -/
def adaptiveNewDifficulty (answers : List (String × AnswerRecord))
    (current_difficulty : String) : String :=
  let recent_answers := (answers.map (fun p => p.2)).drop (answers.length - 3)
  let recent_correct := (recent_answers.filter (fun a => a.is_correct)).length
  let accuracy : ℚ := ((recent_correct : ℚ) / 3) * 100
  if accuracy ≥ 80 ∧ current_difficulty ≠ "hard" then "hard"
  else if accuracy ≤ 40 ∧ current_difficulty ≠ "easy" then "easy"
  else current_difficulty

/-- The guarded session write of `_adjust_adaptive_difficulty`
(quiz.py:548-551). -/
def adjust_adaptive_difficulty (db : DB) (sid : String) (s : SessionRow) : DB :=
  if 3 ≤ s.answers.length then
    let new_difficulty := adaptiveNewDifficulty s.answers s.current_difficulty
    if new_difficulty ≠ s.current_difficulty then
      { db with quiz_sessions := db.quiz_sessions.map (fun r =>
          if r.id == sid then { r with current_difficulty := new_difficulty } else r) }
    else db
  else db

/-- The success body of `GET /quiz/{session_id}/next`; the terminal
"Quiz completed" signal carries `message` and `has_next = false` only. -/
structure NextResponse where
  message : Option String := none
  has_next : Bool
  question : Option FormattedQuestion := none
  question_number : Option Nat := none
  total_questions : Option Nat := none
deriving DecidableEq, Repr

/-- Resolving and formatting the question at the cursor (quiz.py:137-160):
parse the id, fetch the content row (404 if absent), and extract the
addressed element; a failed `int()` parse, a negative index out of range,
or `_format_question` applied to a non-dict all raise and surface as 500. -/
def nextQuestionResolve (db : DB) (qid : String) : Except HttpError FormattedQuestion :=
  match qidIndex1 qid with
  | none => .error ⟨500, "Internal Server Error"⟩
  | some i1 =>
    match findContent db (qidContentId qid) with
    | none => .error ⟨404, "Question not found"⟩
    | some row =>
      match row.content with
      | .arr qs =>
        if i1 < (qs.length : Int) then
          match pyGet qs i1 with
          | some q => .ok (format_question (some qid) q)
          | none => .error ⟨500, "Internal Server Error"⟩
        else .error ⟨500, "Internal Server Error"⟩
      | .obj q => .ok (format_question none q)
      | .other => .error ⟨500, "Internal Server Error"⟩

/-- Embeds `get_next_question` (quiz.py:108-172): ownership check, terminal-state
check, completion signal past the last index, question resolution, then —
for adaptive sessions only — the difficulty adjustment side effect. -/
def get_next_question (db : DB) (sid user : String) : DB × Except HttpError NextResponse :=
  match findSession db sid user with
  | none => (db, .error ⟨404, "Quiz session not found"⟩)
  | some s =>
    if s.status != "in_progress" then (db, .error ⟨400, "Quiz already completed"⟩)
    else
      match s.questions[s.current_question_index]? with
      | none => (db, .ok ⟨some "Quiz completed", false, none, none, none⟩)
      | some qid =>
        match nextQuestionResolve db qid with
        | .error e => (db, .error e)
        | .ok fq =>
          let db' := if s.is_adaptive then adjust_adaptive_difficulty db sid s else db
          (db', .ok ⟨none, s.current_question_index + 1 < s.questions.length, some fq,
            some (s.current_question_index + 1), some s.questions.length⟩)

/-- The body of `POST /quiz/{session_id}/answer` (models/quiz.py:36-42). -/
structure QuizAnswerRequest where
  question_id : String
  selected_answer : String
  time_spent_seconds : Int := 0
  show_explanation : Bool := false
deriving DecidableEq, Repr

/-- What the answer handler extracts from the content store for one
question id: the authoritative correct answer and the explanation (both
absent when the id addresses nothing). -/
structure AnswerKey where
  correct_answer : Option String
  explanation : Option String
deriving DecidableEq, Repr

/-- The id parse and content lookup of `submit_answer` (quiz.py:197-227 and
282-288): the `[1]` index parse runs first (quiz.py:199), the content row
is fetched (404 if absent), and for array content the index is re-parsed
with `[-1]` (quiz.py:222); an out-of-range non-negative index leaves the
correct answer `None` without raising. -/
def answerLookup (db : DB) (qid : String) : Except HttpError AnswerKey :=
  match qidIndex1 qid with
  | none => .error ⟨500, "Internal Server Error"⟩
  | some _i1 =>
    match findContent db (qidContentId qid) with
    | none => .error ⟨404, "Question not found"⟩
    | some row =>
      match row.content with
      | .arr qs =>
        match qidIndexLast qid with
        | none => .error ⟨500, "Internal Server Error"⟩
        | some iL =>
          if iL < (qs.length : Int) then
            match pyGet qs iL with
            | some q => .ok ⟨q.correct_answer, q.explanation⟩
            | none => .error ⟨500, "Internal Server Error"⟩
          else .ok ⟨none, none⟩
      | .obj q => .ok ⟨q.correct_answer, q.explanation⟩
      | .other => .ok ⟨none, none⟩

/-- The response of `POST /quiz/{session_id}/answer`; `explanation` and
`correct_answer` are attached only when the answer is wrong and the caller
asked for the explanation. -/
structure AnswerResponse where
  is_correct : Bool
  has_next : Bool
  explanation : Option String := none
  correct_answer : Option String := none
deriving DecidableEq, Repr

/-- Embeds `is_correct = request.selected_answer == correct_answer` (quiz.py:228);
comparing against Python `None` is `False`. -/
def answerIsCorrect (k : AnswerKey) (selected : String) : Bool :=
  match k.correct_answer with
  | some c => selected == c
  | none => false

/-- The body of `submit_answer` after the session and content lookups
succeeded (quiz.py:228-290): correctness check, in-session answer
overwrite, unconditional cursor increment, session update, and the
check-then-insert-or-update ledger upsert keyed by
`(user_id, content_id = question_id, session_id)`. -/
def submit_answer_core (db : DB) (sid user : String) (s : SessionRow) (k : AnswerKey)
    (req : QuizAnswerRequest) (new_attempt_id : String) (now : Nat) :
    DB × Except HttpError AnswerResponse :=
  let is_correct := answerIsCorrect k req.selected_answer
  let record : AnswerRecord := ⟨req.selected_answer, is_correct, req.time_spent_seconds, now⟩
  let answers' := dictSet s.answers req.question_id record
  let new_index := s.current_question_index + 1
  let sessions' := db.quiz_sessions.map (fun r =>
    if r.id == sid then
      { r with answers := answers', current_question_index := new_index, updated_at := some now }
    else r)
  let existing := (db.user_question_attempts.filter (fun a =>
    a.user_id == user && a.content_id == req.question_id && a.session_id == sid)).map
    (fun a => a.id)
  let attempts' := match existing.head? with
    | none => db.user_question_attempts ++
        [⟨new_attempt_id, user, req.question_id, sid, is_correct, req.time_spent_seconds, now⟩]
    | some eid => db.user_question_attempts.map (fun a =>
        if a.id == eid then
          { a with is_correct := is_correct, time_taken_seconds := req.time_spent_seconds,
                   attempted_at := now }
        else a)
  let response : AnswerResponse :=
    { is_correct := is_correct
      has_next := new_index < s.questions.length
      explanation := if req.show_explanation && !is_correct then k.explanation else none
      correct_answer := if req.show_explanation && !is_correct then k.correct_answer else none }
  ({ db with quiz_sessions := sessions', user_question_attempts := attempts' }, .ok response)

/-- Embeds `submit_answer` (quiz.py:179-290).  Note that — unlike `get_next_question`
and `submit_quiz` — it performs *no* status check on the session. -/
def submit_answer (db : DB) (sid user : String) (req : QuizAnswerRequest)
    (new_attempt_id : String) (now : Nat) : DB × Except HttpError AnswerResponse :=
  match findSession db sid user with
  | none => (db, .error ⟨404, "Quiz session not found"⟩)
  | some s =>
    match answerLookup db req.question_id with
    | .error e => (db, .error e)
    | .ok k => submit_answer_core db sid user s k req new_attempt_id now

/-- The scored fields of `QuizResultResponse` built by `submit_quiz`.  The
display-rounded copies of `accuracy` and `time_spent_minutes`
(`round(x, 2)`) and the analysis breakdown are not modelled; the exact
values persisted on the session row carry the same information. -/
structure SubmitResponse where
  session_id : String
  total_questions : Nat
  attempted_questions : Nat
  correct_answers : Nat
  time_spent_minutes : ℚ
  coins_earned : Int
  performance_level : String
deriving DecidableEq, Repr

/-- Embeds `submit_quiz` (quiz.py:297-361): ownership check, terminal-state check
(`400 Quiz already submitted`), scoring, and the completing session update.
The fire-and-forget `_award_coins` background task touches only
`user_profiles` and is outside the modelled state. -/
def submit_quiz (db : DB) (sid user : String) (now : Nat) :
    DB × Except HttpError SubmitResponse :=
  match findSession db sid user with
  | none => (db, .error ⟨404, "Quiz session not found"⟩)
  | some s =>
    if s.status == "completed" then (db, .error ⟨400, "Quiz already submitted"⟩)
    else
      let answers := s.answers
      let total_questions := s.total_questions
      let correct_answers := (answers.filter (fun p => p.2.is_correct)).length
      let accuracy := computeAccuracy correct_answers total_questions
      let time_spent_minutes : ℚ := ((now : ℚ) - (s.started_at : ℚ)) / 60
      let coins_earned := calculate_coins accuracy s.quiz_type
      let db' := { db with quiz_sessions := db.quiz_sessions.map (fun r =>
        if r.id == sid then
          { r with status := "completed", completed_at := some now,
                   correct_answers := some correct_answers, accuracy := some accuracy,
                   time_spent_minutes := some time_spent_minutes,
                   coins_earned := some coins_earned }
        else r) }
      (db', .ok ⟨sid, total_questions, answers.length, correct_answers,
        time_spent_minutes, coins_earned, get_performance_level accuracy⟩)

/-- The body of `POST /student/questions` (models/content.py:340-347). -/
structure ContentRequest where
  content_type : Option String := none
  chapter_id : Option String := none
  topic : Option String := none
  difficulty : Option String := none
  exclude_attempted : Bool := true
  limit : Nat := 10
deriving DecidableEq, Repr

/-- Embeds `get_questions` (student.py:131-185): filtered query with an
attempted-id exclusion applied only when `exclude_attempted` is set and the
caller has prior attempts; on an empty result with `exclude_attempted`
still set, the exclusion is dropped and the query retried by content type
alone ("Reset exclusion and try again"), returning previously attempted
rows.  (`.eq("content_type", None)` on the retry matches no row.) -/
def get_questions (db : DB) (user : String) (req : ContentRequest) : List ContentRow :=
  let attempted_ids := attemptedIds db user
  let rows := (db.ai_generated_content.filter (fun r =>
    (match req.content_type with | some ct => r.content_type == ct | none => true)
    && (match req.chapter_id with | some c => r.chapter_id == some c | none => true)
    && (match req.topic with | some t => r.topic == some t | none => true)
    && (match req.difficulty with | some d => r.difficulty_level == some d | none => true)
    && (if req.exclude_attempted && !attempted_ids.isEmpty then
          !(attempted_ids.contains r.id) else true))).take req.limit
  if rows.isEmpty then
    if !req.exclude_attempted then []
    else
      (db.ai_generated_content.filter (fun r =>
        match req.content_type with
        | some ct => r.content_type == ct
        | none => false)).take req.limit
  else rows

/-- Embeds `get_random_questions` (student.py:188-223): filtered query with the
same conditional attempted-id exclusion, truncated to `count`. -/
def get_random_questions (db : DB) (user : String) (content_type : String)
    (count : Nat) (difficulty : Option String) (exclude_attempted : Bool) :
    List ContentRow :=
  let attempted_ids := attemptedIds db user
  (db.ai_generated_content.filter (fun r =>
    r.content_type == content_type
    && (match difficulty with | some d => r.difficulty_level == some d | none => true)
    && (if exclude_attempted && !attempted_ids.isEmpty then
          !(attempted_ids.contains r.id) else true))).take count

/-- A scalar (single-object) question with correct answer `"A1"`. -/
def qA : Question :=
  { question_text := some "QA", correct_answer := some "A1",
    explanation := some "expA", difficulty := some "medium" }

/-- A scalar question with correct answer `"B1"`. -/
def qB : Question :=
  { question_text := some "QB", correct_answer := some "B1",
    explanation := some "expB", difficulty := some "medium" }

/-- A scalar question with correct answer `"C1"`. -/
def qC : Question :=
  { question_text := some "QC", correct_answer := some "C1",
    explanation := some "expC", difficulty := some "medium" }

/-- A scalar question with correct answer `"D1"`. -/
def qD : Question :=
  { question_text := some "QD", correct_answer := some "D1",
    explanation := some "expD", difficulty := some "medium" }

/-- Content row `A` of type `mcq_medium`. -/
def rowA : ContentRow := { id := "A", content_type := "mcq_medium", content := .obj qA }

/-- Content row `B` of type `mcq_medium`. -/
def rowB : ContentRow := { id := "B", content_type := "mcq_medium", content := .obj qB }

/-- Content row `C` of type `mcq_medium`. -/
def rowC : ContentRow := { id := "C", content_type := "mcq_medium", content := .obj qC }

/-- Content row `D` of type `mcq_medium`. -/
def rowD : ContentRow := { id := "D", content_type := "mcq_medium", content := .obj qD }

/-- An empty store. -/
def emptyDB : DB := { quiz_sessions := [], user_question_attempts := [], ai_generated_content := [] }

/-- Store for the uniqueness scenario: pool `{A, B, C, D}`, with user `u1`
holding prior ledger rows for content ids `A` and `B`. -/
def C1db : DB :=
  { quiz_sessions := []
    user_question_attempts :=
      [⟨"at1", "u1", "A", "s0", true, 10, 0⟩, ⟨"at2", "u1", "B", "s0", false, 5, 0⟩]
    ai_generated_content := [rowA, rowB, rowC, rowD] }

/-- Store for the fallback scenario of `get_questions`: a single `mcq_easy`
row `E` that user `u1` has already attempted. -/
def C8db : DB :=
  { quiz_sessions := []
    user_question_attempts := [⟨"at3", "u1", "E", "s0", true, 3, 0⟩]
    ai_generated_content := [{ id := "E", content_type := "mcq_easy", content := .obj qA }] }

/-- An in-progress session with 8 of 10 answers correct, quiz type
`mock_exam`. -/
def C6session : SessionRow :=
  { id := "s6", user_id := "u", quiz_type := "mock_exam", total_questions := 10,
    time_limit_minutes := 180, started_at := 0, status := "in_progress",
    questions := ["Q1", "Q2", "Q3", "Q4", "Q5", "Q6", "Q7", "Q8", "Q9", "Q10"],
    current_question_index := 10,
    answers :=
      [("Q1", ⟨"a", true, 6, 1⟩), ("Q2", ⟨"a", true, 6, 2⟩), ("Q3", ⟨"a", true, 6, 3⟩),
       ("Q4", ⟨"a", true, 6, 4⟩), ("Q5", ⟨"a", true, 6, 5⟩), ("Q6", ⟨"a", true, 6, 6⟩),
       ("Q7", ⟨"a", true, 6, 7⟩), ("Q8", ⟨"a", true, 6, 8⟩), ("Q9", ⟨"b", false, 6, 9⟩),
       ("Q10", ⟨"b", false, 6, 10⟩)],
    is_adaptive := false, current_difficulty := "medium" }

/-- Store holding only `C6session`. -/
def C6db : DB :=
  { quiz_sessions := [C6session], user_question_attempts := [], ai_generated_content := [] }

/-- The ledger rows for one `(user_id, content_id, session_id)` key, i.e.
the filter of quiz.py:261-263. -/
def attemptsFor (l : List AttemptRow) (user q sid : String) : List AttemptRow :=
  l.filter (fun a => a.user_id == user && a.content_id == q && a.session_id == sid)

/-- One client call of the session lifecycle used by the monotone-cursor
property: a `GET .../next` or a `POST .../answer`. -/
inductive QuizCall where
  | nextq : QuizCall
  | answerq (req : QuizAnswerRequest) (new_attempt_id : String) (now : Nat) : QuizCall
deriving Repr

/-- The store after one call against session `sid` by `user`. -/
def applyCall (sid user : String) (db : DB) : QuizCall → DB
  | .nextq => (get_next_question db sid user).1
  | .answerq req nid now => (submit_answer db sid user req nid now).1

/-- The store after a sequence of `next()`/`answer()` calls. -/
def runCalls (sid user : String) (db : DB) (calls : List QuizCall) : DB :=
  calls.foldl (applyCall sid user) db

/-- An in-progress one-question session. -/
def C3session : SessionRow :=
  { id := "s3", user_id := "u", quiz_type := "mcq", total_questions := 1,
    time_limit_minutes := 2, started_at := 0, status := "in_progress",
    questions := ["A"], current_question_index := 0, answers := [],
    is_adaptive := false, current_difficulty := "medium" }

/-- Store with `C3session` and the content row `A`, empty ledger. -/
def C3db : DB :=
  { quiz_sessions := [C3session], user_question_attempts := [],
    ai_generated_content := [rowA] }

/-- The session row after one `answer()` call on `C3session`. -/
def C3afterOne : SessionRow :=
  { C3session with
      answers := [("A", ⟨"x", false, 1, 1⟩)]
      current_question_index := 1
      updated_at := some 1 }

/-- A completed one-question session. -/
def C2session : SessionRow :=
  { id := "s2", user_id := "u", quiz_type := "mcq", total_questions := 1,
    time_limit_minutes := 2, started_at := 0, status := "completed",
    questions := ["A"], current_question_index := 0, answers := [],
    is_adaptive := false, current_difficulty := "medium", completed_at := some 3 }

/-- Store with the completed `C2session` and content row `A`. -/
def C2db : DB :=
  { quiz_sessions := [C2session], user_question_attempts := [],
    ai_generated_content := [rowA] }

/-- Modelled from the spec (§4.3), for comparison with the code's
`adaptiveNewDifficulty`: take the most recent 3 answers in insertion
order, `recent_accuracy = correct_in_last_3 / 3 * 100`, promote to `hard`
when `recent_accuracy ≥ 80` and the tier is not already `hard`, demote to
`easy` when `recent_accuracy ≤ 40` and the tier is not already `easy`,
otherwise leave the tier unchanged. -/
def specAdaptiveTier (answers : List (String × AnswerRecord))
    (current_difficulty : String) : String :=
  let recent := (answers.map (fun p => p.2)).drop (answers.length - 3)
  let recent_accuracy : ℚ := ((recent.filter (fun a => a.is_correct)).length : ℚ) / 3 * 100
  if recent_accuracy ≥ 80 ∧ current_difficulty ≠ "hard" then "hard"
  else if recent_accuracy ≤ 40 ∧ current_difficulty ≠ "easy" then "easy"
  else current_difficulty

/-- An in-progress adaptive session at `medium` whose last 3 answers are
all correct, cursor on the fourth question. -/
def C5sessionTTT : SessionRow :=
  { id := "s5", user_id := "u", quiz_type := "adaptive", total_questions := 4,
    time_limit_minutes := 8, started_at := 0, status := "in_progress",
    questions := ["A", "B", "C", "D"], current_question_index := 3,
    answers := [("A", ⟨"A1", true, 5, 1⟩), ("B", ⟨"B1", true, 5, 2⟩), ("C", ⟨"C1", true, 5, 3⟩)],
    is_adaptive := true, current_difficulty := "medium" }

/-- Store holding `C5sessionTTT` and the four content rows. -/
def C5dbTTT : DB :=
  { quiz_sessions := [C5sessionTTT], user_question_attempts := [],
    ai_generated_content := [rowA, rowB, rowC, rowD] }

/-! ## Lemmas and claim theorems -/

/-- C1: question selection for `start()` must exclude every question id
present in the caller's Attempt Ledger rows.  The code violates this for
`start()`: `_get_quiz_questions` fetches the attempted ids but deliberately
does not apply them ("For now, don't filter by attempted"), so with prior
attempts on `{A, B}` and pool `{A, B, C, D}` the candidate list still
contains `A` and `B`.  The ad-hoc practice endpoint
(`get_random_questions`) does apply the exclusion and returns only
`{C, D}`. -/
theorem C1_start_ignores_attempted_ledger :
    ((get_quiz_questions id C1db "u1" none none none 4).map (fun fq => fq.id))
      = ["A", "B", "C", "D"] ∧
    "A" ∈ attemptedIds C1db "u1" ∧ "B" ∈ attemptedIds C1db "u1" ∧
    ((get_random_questions C1db "u1" "mcq_medium" 4 none true).map (fun r => r.id))
      = ["C", "D"] := by
  refine ⟨by rfl, by decide, by decide, by rfl⟩

/-- C7: a `start()` call whose filters match no questions is required to
surface as a 4xx `NotFoundError`; in the code the `HTTPException(404)`
raised inside the handler's `try` block is caught by the blanket
`except Exception` and re-raised as a 500, so the caller sees a 5xx. -/
theorem C7_empty_pool_surfaces_as_500 :
    start_quiz id emptyDB "u1" ⟨"mcq", none, none, none, 10, none⟩ "s1" 0 =
      (emptyDB,
       .error ⟨500, "Failed to start quiz: 404: No questions found for selected criteria"⟩) := by
  rfl

/-- C8: with `exclude_attempted=true` and an exhausted candidate set the
spec requires an empty result; the code instead drops the exclusion and
re-queries ("Reset exclusion and try again"), returning the previously
attempted row `E`. -/
theorem C8_exhausted_pool_recycles_attempted :
    ((get_questions C8db "u1"
        { content_type := some "mcq_easy", exclude_attempted := true, limit := 10 }).map
      (fun r => r.id)) = ["E"] ∧
    "E" ∈ attemptedIds C8db "u1" := by
  refine ⟨by rfl, by decide⟩

/-- C9 counterexample: the claim's example says 90 seconds per question
over 5 questions gives 7.5 minutes; `_calculate_time_limit` returns the
integer `(90 * 5) // 60 = 7`, and `7 ≠ 7.5`. -/
theorem C9_time_limit_counterexample :
    calculate_time_limit "timed" 5 (some 90) = 7 ∧ ((7 : ℚ) ≠ 90 * 5 / 60) := by
  refine ⟨by decide, by norm_num⟩

/-- C9 (amended): `time_limit_minutes` is 180 for `mock_exam`; otherwise
`(seconds_per_question * question_count) // 60` (integer floor division)
when the caller supplies a non-zero per-question time; otherwise (including
a supplied per-question time of 0) `question_count * 2`; 90 seconds per
question over 5 questions gives 7 minutes. -/
theorem C9_time_limit_amended (qt : String) (count t : Int) :
    calculate_time_limit "mock_exam" count (some t) = 180 ∧
    calculate_time_limit "mock_exam" count none = 180 ∧
    (qt ≠ "mock_exam" → t ≠ 0 →
      calculate_time_limit qt count (some t) = Int.fdiv (t * count) 60) ∧
    (qt ≠ "mock_exam" → calculate_time_limit qt count none = count * 2) ∧
    (qt ≠ "mock_exam" → calculate_time_limit qt count (some 0) = count * 2) ∧
    calculate_time_limit "timed" 5 (some 90) = 7 := by
  refine ⟨by rfl, by rfl, ?_, ?_, ?_, by decide⟩
  · intro h ht
    simp only [calculate_time_limit, beq_iff_eq, if_neg h, bne_iff_ne, ne_eq, ht,
      not_false_eq_true, if_true]
  · intro h
    simp only [calculate_time_limit, beq_iff_eq, if_neg h]
  · intro h
    simp only [calculate_time_limit, beq_iff_eq, if_neg h, bne_iff_ne, ne_eq,
      not_true_eq_false, if_false]

/-- C9 witness: the amended rule applied at 90 seconds per question over 5
questions. -/
theorem C9_time_limit_amended_witness :
    calculate_time_limit "timed" 5 (some 90) = Int.fdiv (90 * 5) 60 :=
  (C9_time_limit_amended "timed" 5 90).2.2.1 (by decide) (by decide)

/-- The tier arms of `_calculate_coins` equal one floor of base times the
accuracy-tier factor. -/
lemma coins_floor_form (b : Int) (acc : ℚ) :
    (if acc ≥ 90 then b * 2
     else if acc ≥ 75 then ⌊(b : ℚ) * 1.5⌋
     else if acc ≥ 60 then b
     else ⌊(b : ℚ) * 0.5⌋)
    = ⌊(b : ℚ) * (if acc ≥ 90 then 2 else if acc ≥ 75 then 3/2
        else if acc ≥ 60 then 1 else 1/2)⌋ := by
  split_ifs with h1 h2 h3
  · rw [show ((b : ℚ) * 2) = ((b * 2 : Int) : ℚ) by push_cast; ring, Int.floor_intCast]
  · norm_num
  · rw [mul_one, Int.floor_intCast]
  · norm_num

/-- C6: `coins_earned` is the base coin value of the quiz type
(`mcq=10, adaptive=15, timed=12, mock_exam=50`, default 10) times the
accuracy-tier factor (`≥90 → 2.0`, `≥75 → 1.5`, `≥60 → 1.0`, else `0.5`),
truncated to an integer; accuracy is `correct / total * 100` when
`total > 0` and `0` otherwise, so 8 of 10 gives exactly 80 and `mock_exam`
at 80 yields 75 coins; and `submit()` computes `coins_earned` by exactly
this rule from the session's answers. -/
theorem C6_scoring_coins (acc : ℚ) (qt : String) (correct total : Nat)
    (db : DB) (sid user : String) (now : Nat) (s : SessionRow) :
    (calculate_coins acc qt =
      ⌊(((if qt = "mcq" then (10 : Int) else if qt = "adaptive" then 15
          else if qt = "timed" then 12 else if qt = "mock_exam" then 50 else 10) : Int) : ℚ) *
        (if acc ≥ 90 then 2 else if acc ≥ 75 then 3/2
         else if acc ≥ 60 then 1 else 1/2)⌋) ∧
    (computeAccuracy correct total = if 0 < total then (correct : ℚ) / total * 100 else 0) ∧
    computeAccuracy 8 10 = 80 ∧
    calculate_coins 80 "mock_exam" = 75 ∧
    (findSession db sid user = some s → s.status ≠ "completed" →
      ∃ r, (submit_quiz db sid user now).2 = .ok r ∧
        r.coins_earned =
          calculate_coins
            (computeAccuracy ((s.answers.filter (fun p => p.2.is_correct)).length)
              s.total_questions) s.quiz_type) := by
  refine ⟨?_, by rfl, by norm_num [computeAccuracy], ?_, ?_⟩
  · simp only [calculate_coins, beq_iff_eq]
    exact coins_floor_form _ acc
  · unfold calculate_coins
    rw [if_neg (by norm_num), if_pos (by norm_num : (80 : ℚ) ≥ 75),
      if_neg (by decide), if_neg (by decide), if_neg (by decide), if_pos (by decide)]
    norm_num
  · intro h1 h2
    have hb : (s.status == "completed") = false := beq_eq_false_iff_ne.mpr h2
    unfold submit_quiz
    rw [h1]
    dsimp only
    rw [hb]
    simp only [Bool.false_eq_true, if_false]
    exact ⟨_, rfl, rfl⟩

/-- C6 witness: submitting `C6session` (8 of 10 correct, `mock_exam`). -/
theorem C6_scoring_coins_witness :
    ∃ r, (submit_quiz C6db "s6" "u" 60).2 = .ok r ∧
      r.coins_earned =
        calculate_coins
          (computeAccuracy ((C6session.answers.filter (fun p => p.2.is_correct)).length)
            C6session.total_questions) C6session.quiz_type :=
  (C6_scoring_coins 0 "" 0 0 C6db "s6" "u" 60 C6session).2.2.2.2 (by rfl) (by decide)

/-- C10: `question_count` is accepted only within `5 ≤ n ≤ 100` (default
10); an out-of-range value is rejected with a 422 validation error before
the handler runs, leaving the session store unchanged; an accepted value is
passed through unchanged. -/
theorem C10_question_count_validation (shuffle : List FlatQuestion → List FlatQuestion)
    (db : DB) (user : String) (raw : RawQuizStartRequest) (session_id : String)
    (now : Nat) (qc : Int) :
    (raw.question_count = some qc → ¬(5 ≤ qc ∧ qc ≤ 100) →
      handle_start_quiz shuffle db user raw session_id now =
        (db, .error ⟨422, "Unprocessable Entity"⟩)) ∧
    (raw.question_count = none → ∀ req, validate_quiz_start raw = .ok req →
      req.question_count = 10) ∧
    (∀ req, validate_quiz_start raw = .ok req →
      5 ≤ (req.question_count : Int) ∧ (req.question_count : Int) ≤ 100 ∧
      (raw.question_count = some qc → (req.question_count : Int) = qc)) := by
  refine ⟨?_, ?_, ?_⟩
  · intro hqc hrange
    unfold handle_start_quiz validate_quiz_start
    cases hqt : raw.quiz_type with
    | none => rfl
    | some qt =>
      rw [hqc]
      simp only [Option.getD_some]
      rw [if_neg hrange]
  · intro hqc req hok
    unfold validate_quiz_start at hok
    cases hqt : raw.quiz_type with
    | none => rw [hqt] at hok; exact absurd hok (by simp)
    | some qt =>
      rw [hqt, hqc] at hok
      simp only [Option.getD_none] at hok
      rw [if_pos (by norm_num)] at hok
      cases hok
      rfl
  · intro req hok
    unfold validate_quiz_start at hok
    cases hqt : raw.quiz_type with
    | none => rw [hqt] at hok; exact absurd hok (by simp)
    | some qt =>
      rw [hqt] at hok
      dsimp only at hok
      by_cases hr : 5 ≤ raw.question_count.getD 10 ∧ raw.question_count.getD 10 ≤ 100
      · rw [if_pos hr] at hok
        cases hok
        have hnn : (0 : Int) ≤ raw.question_count.getD 10 := le_trans (by norm_num) hr.1
        refine ⟨?_, ?_, ?_⟩
        · simpa [Int.toNat_of_nonneg hnn] using hr.1
        · simpa [Int.toNat_of_nonneg hnn] using hr.2
        · intro hq
          rw [hq] at hnn
          simp only [Option.getD_some] at hnn
          simp [hq, Int.toNat_of_nonneg hnn]
      · rw [if_neg hr] at hok
        exact absurd hok (by simp)

/-- C10 witness: `question_count = 3` is rejected with 422 and the store is
untouched. -/
theorem C10_question_count_validation_witness :
    handle_start_quiz id emptyDB "u"
        { quiz_type := some "mcq", question_count := some 3 } "s" 0 =
      (emptyDB, .error ⟨422, "Unprocessable Entity"⟩) :=
  (C10_question_count_validation id emptyDB "u"
    { quiz_type := some "mcq", question_count := some 3 } "s" 0 3).1 rfl (by decide)

/-- Filtering commutes with a map that does not change the predicate. -/
lemma filter_map_head {α : Type} (g : α → α) (p : α → Bool) (l : List α)
    (h : ∀ a, p (g a) = p a) :
    ((l.map g).filter p).head? = ((l.filter p).head?).map g := by
  induction l with
  | nil => rfl
  | cons a t ih =>
    simp only [List.map_cons, List.filter_cons, h a]
    by_cases hp : p a = true
    · simp [hp]
    · simp [hp, ih]

/-- Lemma: `findSession` reads only the `quiz_sessions` column. -/
lemma findSession_set (db : DB) (ls : List SessionRow) (la : List AttemptRow)
    (sid uid : String) :
    findSession { db with quiz_sessions := ls, user_question_attempts := la } sid uid
      = (ls.filter (fun s => s.id == sid && s.user_id == uid)).head? := rfl

/-- Lemma: `findSession` reads only the `quiz_sessions` column (sessions-only update). -/
lemma findSession_set_sessions (db : DB) (ls : List SessionRow) (sid uid : String) :
    findSession { db with quiz_sessions := ls } sid uid
      = (ls.filter (fun s => s.id == sid && s.user_id == uid)).head? := rfl

/-- The row returned by `findSession` carries the looked-up id and owner. -/
lemma findSession_some_fields (db : DB) (sid uid : String) (s : SessionRow)
    (h : findSession db sid uid = some s) : s.id = sid ∧ s.user_id = uid := by
  unfold findSession at h
  have hmem : s ∈ db.quiz_sessions.filter (fun r => r.id == sid && r.user_id == uid) := by
    cases hl : db.quiz_sessions.filter (fun r => r.id == sid && r.user_id == uid) with
    | nil => rw [hl] at h; cases h
    | cons x t =>
      rw [hl] at h
      cases h
      exact List.mem_cons_self _ _
  have hp := List.of_mem_filter hmem
  simp only [Bool.and_eq_true, beq_iff_eq] at hp
  exact hp

/-- The session row visible after a successful `submit_answer`: the answer
dict gains (or overwrites) the submitted question's record and the cursor
advances by exactly one. -/
lemma submit_answer_core_findSession (db : DB) (sid user : String) (s : SessionRow)
    (k : AnswerKey) (req : QuizAnswerRequest) (nid : String) (now : Nat)
    (hs : findSession db sid user = some s) :
    findSession (submit_answer_core db sid user s k req nid now).1 sid user =
      some { s with
        answers := dictSet s.answers req.question_id
          ⟨req.selected_answer, answerIsCorrect k req.selected_answer,
           req.time_spent_seconds, now⟩,
        current_question_index := s.current_question_index + 1,
        updated_at := some now } := by
  have hfields := findSession_some_fields db sid user s hs
  unfold submit_answer_core
  dsimp only
  rw [findSession_set]
  rw [filter_map_head _ _ _ (fun r => by
    by_cases hc : (r.id == sid) = true
    · rw [if_pos hc]
    · rw [if_neg hc])]
  unfold findSession at hs
  rw [hs]
  dsimp only [Option.map_some']
  rw [if_pos (beq_iff_eq.mpr hfields.1)]

/-- Lemma: `submit_answer` with both lookups succeeding is `submit_answer_core`. -/
lemma submit_answer_eq_core (db : DB) (sid user : String) (req : QuizAnswerRequest)
    (nid : String) (now : Nat) (s : SessionRow) (k : AnswerKey)
    (hs : findSession db sid user = some s)
    (hk : answerLookup db req.question_id = .ok k) :
    submit_answer db sid user req nid now = submit_answer_core db sid user s k req nid now := by
  unfold submit_answer
  rw [hs]
  dsimp only
  rw [hk]

/-- The ledger column written by a successful `submit_answer`: insert when
no row matches the key, else update the first matching row in place. -/
lemma submit_answer_core_attempts (db : DB) (sid user : String) (s : SessionRow)
    (k : AnswerKey) (req : QuizAnswerRequest) (nid : String) (now : Nat) :
    (submit_answer_core db sid user s k req nid now).1.user_question_attempts =
      match ((attemptsFor db.user_question_attempts user req.question_id sid).map
          (fun a => a.id)).head? with
      | none => db.user_question_attempts ++
          [⟨nid, user, req.question_id, sid, answerIsCorrect k req.selected_answer,
            req.time_spent_seconds, now⟩]
      | some eid => db.user_question_attempts.map (fun a =>
          if a.id == eid then
            { a with is_correct := answerIsCorrect k req.selected_answer,
                     time_taken_seconds := req.time_spent_seconds, attempted_at := now }
          else a) := rfl

/-- A successful `submit_answer` does not touch the content store. -/
lemma submit_answer_core_contents (db : DB) (sid user : String) (s : SessionRow)
    (k : AnswerKey) (req : QuizAnswerRequest) (nid : String) (now : Nat) :
    (submit_answer_core db sid user s k req nid now).1.ai_generated_content =
      db.ai_generated_content := rfl

/-- Lemma: `answerLookup` reads only the content store. -/
lemma answerLookup_contents_only (db db' : DB) (qid : String)
    (h : db'.ai_generated_content = db.ai_generated_content) :
    answerLookup db' qid = answerLookup db qid := by
  unfold answerLookup findContent
  rw [h]

/-- Lemma: `dictSet` grows the dict by at most one entry. -/
lemma dictSet_length_le (m : List (String × AnswerRecord)) (k : String) (v : AnswerRecord) :
    (dictSet m k v).length ≤ m.length + 1 := by
  unfold dictSet
  split
  · rw [List.length_map]; exact Nat.le_succ _
  · rw [List.length_append]; simp

/-- The first `(id, user)` match after a difficulty-only row update is the
old row with just `current_difficulty` replaced. -/
lemma findSession_update_difficulty (db : DB) (sid uid : String) (t : SessionRow)
    (nd : String) (hs : findSession db sid uid = some t) :
    findSession { db with quiz_sessions := db.quiz_sessions.map (fun r =>
        if r.id == sid then { r with current_difficulty := nd } else r) } sid uid
      = some { t with current_difficulty := nd } := by
  have hfields := findSession_some_fields db sid uid t hs
  rw [findSession_set_sessions]
  rw [filter_map_head _ _ _ (fun r => by
    by_cases hc : (r.id == sid) = true
    · rw [if_pos hc]
    · rw [if_neg hc])]
  unfold findSession at hs
  rw [hs]
  dsimp only [Option.map_some']
  rw [if_pos (beq_iff_eq.mpr hfields.1)]

/-- The session row visible after `_adjust_adaptive_difficulty`: only
`current_difficulty` can change. -/
lemma adjust_adaptive_findSession (db : DB) (sid uid : String) (s t : SessionRow)
    (hs : findSession db sid uid = some t) :
    ∃ t', findSession (adjust_adaptive_difficulty db sid s) sid uid = some t' ∧
      t'.current_question_index = t.current_question_index ∧
      t'.answers = t.answers ∧ t'.questions = t.questions ∧ t'.status = t.status := by
  unfold adjust_adaptive_difficulty
  by_cases h3 : 3 ≤ s.answers.length
  · rw [if_pos h3]
    dsimp only
    by_cases hne : adaptiveNewDifficulty s.answers s.current_difficulty ≠ s.current_difficulty
    · rw [if_pos hne]
      exact ⟨_, findSession_update_difficulty db sid uid t _ hs, rfl, rfl, rfl, rfl⟩
    · rw [if_neg hne]
      exact ⟨t, hs, rfl, rfl, rfl, rfl⟩
  · rw [if_neg h3]
    exact ⟨t, hs, rfl, rfl, rfl, rfl⟩

/-- The session row visible after `get_next_question`: the cursor, the
answers and the question list are untouched. -/
lemma get_next_question_step (db : DB) (sid user : String) (s : SessionRow)
    (hs : findSession db sid user = some s) :
    ∃ s', findSession (get_next_question db sid user).1 sid user = some s' ∧
      s'.current_question_index = s.current_question_index ∧
      s'.answers = s.answers ∧ s'.questions = s.questions := by
  unfold get_next_question
  rw [hs]
  dsimp only
  by_cases hst : (s.status != "in_progress") = true
  · rw [if_pos hst]
    exact ⟨s, hs, rfl, rfl, rfl⟩
  · rw [if_neg hst]
    cases hq : s.questions[s.current_question_index]? with
    | none => exact ⟨s, hs, rfl, rfl, rfl⟩
    | some qid =>
      dsimp only
      cases hr : nextQuestionResolve db qid with
      | error e => exact ⟨s, hs, rfl, rfl, rfl⟩
      | ok fq =>
        dsimp only
        by_cases had : s.is_adaptive = true
        · rw [if_pos had]
          obtain ⟨t', ht', h1, h2, h3, _⟩ := adjust_adaptive_findSession db sid user s s hs
          exact ⟨t', ht', h1, h2, h3⟩
        · rw [if_neg had]
          exact ⟨s, hs, rfl, rfl, rfl⟩

/-- Single-call step: the session survives, the cursor never decreases, the
invariant `len(answers) ≤ current_index` is preserved, and the question
list is fixed. -/
lemma quiz_call_step (sid user : String) (db : DB) (c : QuizCall) (s : SessionRow)
    (hs : findSession db sid user = some s) :
    ∃ s', findSession (applyCall sid user db c) sid user = some s' ∧
      s.current_question_index ≤ s'.current_question_index ∧
      (s.answers.length ≤ s.current_question_index →
        s'.answers.length ≤ s'.current_question_index) ∧
      s'.questions = s.questions := by
  cases c with
  | nextq =>
    obtain ⟨s', h1, h2, h3, h4⟩ := get_next_question_step db sid user s hs
    exact ⟨s', h1, le_of_eq h2.symm, fun h => by rw [h2, h3]; exact h, h4⟩
  | answerq req nid now =>
    show ∃ s', findSession (submit_answer db sid user req nid now).1 sid user = some s' ∧ _
    unfold submit_answer
    rw [hs]
    dsimp only
    cases hk : answerLookup db req.question_id with
    | error e => exact ⟨s, hs, le_refl _, fun h => h, rfl⟩
    | ok k =>
      dsimp only
      rw [submit_answer_core_findSession db sid user s k req nid now hs]
      refine ⟨_, rfl, Nat.le_succ _, ?_, rfl⟩
      intro h
      calc (dictSet s.answers req.question_id
            ⟨req.selected_answer, answerIsCorrect k req.selected_answer,
             req.time_spent_seconds, now⟩).length
          ≤ s.answers.length + 1 := dictSet_length_le _ _ _
        _ ≤ s.current_question_index + 1 := Nat.succ_le_succ h

/-- Multi-call composition of `quiz_call_step`. -/
lemma runCalls_step (sid user : String) (calls : List QuizCall) :
    ∀ (db : DB) (s : SessionRow), findSession db sid user = some s →
    ∃ s', findSession (runCalls sid user db calls) sid user = some s' ∧
      s.current_question_index ≤ s'.current_question_index ∧
      (s.answers.length ≤ s.current_question_index →
        s'.answers.length ≤ s'.current_question_index) ∧
      s'.questions = s.questions := by
  induction calls with
  | nil => exact fun db s hs => ⟨s, hs, le_refl _, fun h => h, rfl⟩
  | cons c cs ih =>
    intro db s hs
    obtain ⟨s1, h1, h2, h3, h4⟩ := quiz_call_step sid user db c s hs
    obtain ⟨s', h1', h2', h3', h4'⟩ := ih (applyCall sid user db c) s1 h1
    exact ⟨s', h1', le_trans h2 h2', fun h => h3' (h3 h), by rw [h4', h4]⟩

/-- C3 counterexample: answering the same single question twice drives
`current_index` to 2 on a 1-question session, so `current_index` is *not*
bounded by `len(question_ids)`. -/
theorem C3_cursor_bound_counterexample :
    ((findSession (runCalls "s3" "u" C3db
        [QuizCall.answerq ⟨"A", "x", 1, false⟩ "n1" 1,
         QuizCall.answerq ⟨"A", "y", 2, false⟩ "n2" 2]) "s3" "u").map
      (fun r => (r.current_question_index, r.questions.length))) = some (2, 1) ∧
    ¬(2 ≤ 1) := ⟨rfl, by decide⟩

/-- C3 (amended): over any sequence of `next()`/`answer()` calls the
cursor never decreases and `len(answers) ≤ current_index` is preserved
(and the question list never changes), but `current_index` is *not*
bounded by `len(question_ids)`: each `answer()` call increments it
unconditionally, even when re-answering the same question. -/
theorem C3_cursor_monotone_amended (db : DB) (sid user : String)
    (calls : List QuizCall) (s s' : SessionRow)
    (h0 : findSession db sid user = some s)
    (h1 : findSession (runCalls sid user db calls) sid user = some s')
    (hinv : s.answers.length ≤ s.current_question_index) :
    s.current_question_index ≤ s'.current_question_index ∧
    s'.answers.length ≤ s'.current_question_index ∧
    s'.questions = s.questions := by
  obtain ⟨t, ht, h2, h3, h4⟩ := runCalls_step sid user calls db s h0
  rw [ht] at h1
  cases h1
  exact ⟨h2, h3 hinv, h4⟩

/-- C3 witness: one `answer()` call on the one-question session. -/
theorem C3_cursor_monotone_amended_witness :
    C3session.current_question_index ≤ C3afterOne.current_question_index ∧
    C3afterOne.answers.length ≤ C3afterOne.current_question_index ∧
    C3afterOne.questions = C3session.questions :=
  C3_cursor_monotone_amended C3db "s3" "u" [QuizCall.answerq ⟨"A", "x", 1, false⟩ "n1" 1]
    C3session C3afterOne rfl rfl (by decide)

/-- C2 counterexample: on a `completed` session, `answer()` does not fail
with an invalid-state error — it returns 200 and advances `current_index`
from 0 to 1 (the handler never checks `status`). -/
theorem C2_answer_after_completion_counterexample :
    (submit_answer C2db "s2" "u" ⟨"A", "A1", 3, false⟩ "n1" 7).2 =
      .ok { is_correct := true, has_next := false } ∧
    ((findSession (submit_answer C2db "s2" "u" ⟨"A", "A1", 3, false⟩ "n1" 7).1 "s2" "u").map
      (fun r => r.current_question_index)) = some 1 ∧
    C2session.status = "completed" ∧ C2session.current_question_index = 0 :=
  ⟨rfl, rfl, rfl, rfl⟩

/-- C2 (amended): on a `completed` session, `submit()` fails with the 400
invalid-state error and leaves the store unchanged; `answer()` performs no
status check at all — whenever its lookups succeed it returns a 200
response and still writes the answer and advances `current_index`. -/
theorem C2_terminal_lock_amended (db : DB) (sid user : String) (s : SessionRow)
    (req : QuizAnswerRequest) (k : AnswerKey) (nid : String) (now : Nat)
    (hs : findSession db sid user = some s) (hc : s.status = "completed") :
    (submit_quiz db sid user now = (db, .error ⟨400, "Quiz already submitted"⟩)) ∧
    (answerLookup db req.question_id = .ok k →
      (∃ r, (submit_answer db sid user req nid now).2 = .ok r) ∧
      findSession (submit_answer db sid user req nid now).1 sid user =
        some { s with
          answers := dictSet s.answers req.question_id
            ⟨req.selected_answer, answerIsCorrect k req.selected_answer,
             req.time_spent_seconds, now⟩
          current_question_index := s.current_question_index + 1
          updated_at := some now }) := by
  constructor
  · unfold submit_quiz
    rw [hs]
    dsimp only
    rw [if_pos (beq_iff_eq.mpr hc)]
  · intro hk
    rw [submit_answer_eq_core db sid user req nid now s k hs hk]
    exact ⟨⟨_, rfl⟩, submit_answer_core_findSession db sid user s k req nid now hs⟩

/-- C2 witness: the completed session rejects `submit()` with 400 and an
untouched store, and accepts `answer()`. -/
theorem C2_terminal_lock_amended_witness :
    (submit_quiz C2db "s2" "u" 9 = (C2db, .error ⟨400, "Quiz already submitted"⟩)) ∧
    (∃ r, (submit_answer C2db "s2" "u" ⟨"A", "A1", 3, false⟩ "n1" 9).2 = .ok r) := by
  have h := C2_terminal_lock_amended C2db "s2" "u" C2session ⟨"A", "A1", 3, false⟩
    ⟨some "A1", some "expA"⟩ "n1" 9 rfl rfl
  exact ⟨h.1, (h.2 rfl).1⟩

/-- Filtering commutes with a map that does not change the predicate
(list form). -/
lemma filter_map_comm {α : Type} (g : α → α) (p : α → Bool) (l : List α)
    (h : ∀ a, p (g a) = p a) :
    (l.map g).filter p = (l.filter p).map g := by
  induction l with
  | nil => rfl
  | cons a t ih =>
    simp only [List.map_cons, List.filter_cons, h a]
    by_cases hp : p a = true
    · simp [hp, ih]
    · simp [hp, ih]

/-- The ledger filter of one key splits over appends. -/
lemma attemptsFor_append (l1 l2 : List AttemptRow) (user q sid : String) :
    attemptsFor (l1 ++ l2) user q sid =
      attemptsFor l1 user q sid ++ attemptsFor l2 user q sid := by
  unfold attemptsFor
  simp [List.filter_append]

/-- A row carrying exactly the key passes the key filter. -/
lemma attemptsFor_singleton (user q sid : String) (a : AttemptRow)
    (h1 : a.user_id = user) (h2 : a.content_id = q) (h3 : a.session_id = sid) :
    attemptsFor [a] user q sid = [a] := by
  unfold attemptsFor
  simp [h1, h2, h3]

/-- The in-place ledger update of quiz.py:270-274 touches no key field, so
the key filter commutes with it. -/
lemma attemptsFor_map_update (l : List AttemptRow) (user q sid eid : String)
    (c : Bool) (t : Int) (now : Nat) :
    attemptsFor (l.map (fun a =>
        if a.id == eid then
          { a with is_correct := c, time_taken_seconds := t, attempted_at := now }
        else a)) user q sid =
      (attemptsFor l user q sid).map (fun a =>
        if a.id == eid then
          { a with is_correct := c, time_taken_seconds := t, attempted_at := now }
        else a) := by
  unfold attemptsFor
  exact filter_map_comm _ _ _ (fun a => by
    by_cases hc : (a.id == eid) = true
    · rw [if_pos hc]
    · rw [if_neg hc])

/-- C4: starting from a ledger with no row for the key
`(user, question_id, session_id)`, two `answer()` submissions for that key
with different selected answers leave exactly one ledger row for the key,
and its `is_correct` / `time_taken_seconds` come from the second
submission. -/
theorem C4_answer_upsert (db : DB) (sid user q sel1 sel2 : String) (t1 t2 : Int)
    (nid1 nid2 : String) (now1 now2 : Nat) (s : SessionRow) (k : AnswerKey)
    (hs : findSession db sid user = some s)
    (hk : answerLookup db q = .ok k)
    (hnone : attemptsFor db.user_question_attempts user q sid = [])
    (hdiff : sel1 ≠ sel2) :
    attemptsFor
      ((submit_answer
          ((submit_answer db sid user ⟨q, sel1, t1, false⟩ nid1 now1).1)
          sid user ⟨q, sel2, t2, false⟩ nid2 now2).1).user_question_attempts
      user q sid =
      [⟨nid1, user, q, sid, answerIsCorrect k sel2, t2, now2⟩] := by
  -- first call: the session and lookup both succeed, so it is the core
  rw [submit_answer_eq_core db sid user ⟨q, sel1, t1, false⟩ nid1 now1 s k hs hk]
  -- ledger after call 1: no existing row, so the fresh row is appended
  have hatt1 : (submit_answer_core db sid user s k ⟨q, sel1, t1, false⟩ nid1 now1).1.user_question_attempts
      = db.user_question_attempts ++ [⟨nid1, user, q, sid, answerIsCorrect k sel1, t1, now1⟩] := by
    rw [submit_answer_core_attempts]
    dsimp only
    rw [hnone]
    rfl
  -- the single appended row is the only row for the key after call 1
  have hmid : attemptsFor
      (submit_answer_core db sid user s k ⟨q, sel1, t1, false⟩ nid1 now1).1.user_question_attempts
      user q sid = [⟨nid1, user, q, sid, answerIsCorrect k sel1, t1, now1⟩] := by
    rw [hatt1, attemptsFor_append, hnone, attemptsFor_singleton _ _ _ _ rfl rfl rfl]
    rfl
  -- the second call also runs the core: session still present, contents untouched
  have hs1 := submit_answer_core_findSession db sid user s k ⟨q, sel1, t1, false⟩ nid1 now1 hs
  have hk1 : answerLookup (submit_answer_core db sid user s k ⟨q, sel1, t1, false⟩ nid1 now1).1 q
      = .ok k := by
    rw [answerLookup_contents_only db _ q (submit_answer_core_contents db sid user s k
      ⟨q, sel1, t1, false⟩ nid1 now1)]
    exact hk
  rw [submit_answer_eq_core _ sid user ⟨q, sel2, t2, false⟩ nid2 now2 _ k hs1 hk1]
  -- call 2 finds the row and updates it in place
  rw [submit_answer_core_attempts]
  dsimp only
  rw [hmid]
  rw [hatt1]
  simp only [List.map_cons, List.map_nil, List.head?_cons]
  rw [attemptsFor_map_update, attemptsFor_append, hnone,
    attemptsFor_singleton _ _ _ _ rfl rfl rfl]
  simp

/-- C4 witness: answering question `A` in session `s3` twice ("x", then the
correct "A1") leaves exactly one ledger row carrying the second values. -/
theorem C4_answer_upsert_witness :
    attemptsFor
      ((submit_answer ((submit_answer C3db "s3" "u" ⟨"A", "x", 1, false⟩ "n1" 1).1)
          "s3" "u" ⟨"A", "A1", 2, false⟩ "n2" 2).1).user_question_attempts
      "u" "A" "s3" =
      [⟨"n1", "u", "A", "s3", answerIsCorrect ⟨some "A1", some "expA"⟩ "A1", 2, 2⟩] :=
  C4_answer_upsert C3db "s3" "u" "A" "x" "A1" 1 2 "n1" "n2" 1 2 C3session
    ⟨some "A1", some "expA"⟩ rfl rfl rfl (by decide)

/-- The code's tier computation is exactly the spec's table. -/
lemma adaptiveNewDifficulty_eq_spec :
    adaptiveNewDifficulty = specAdaptiveTier := rfl

/-- C5: on a `next()` call against an adaptive in-progress session whose
question resolves, with at least 3 answers the stored tier becomes exactly
the spec's table applied to the last 3 answers (answers and cursor
untouched); with fewer than 3 answers the store is completely unchanged;
`medium` with last 3 all correct goes to `hard`; `medium` with last 3
`[wrong, wrong, correct]` goes to `easy`; and the code's tier table equals
the spec's. -/
theorem C5_adaptive_difficulty (db : DB) (sid user : String) (s : SessionRow)
    (qid : String) (fq : FormattedQuestion)
    (hs : findSession db sid user = some s)
    (had : s.is_adaptive = true)
    (hst : s.status = "in_progress")
    (hq : s.questions[s.current_question_index]? = some qid)
    (hr : nextQuestionResolve db qid = .ok fq) :
    (3 ≤ s.answers.length →
      findSession (get_next_question db sid user).1 sid user =
        some { s with current_difficulty := specAdaptiveTier s.answers s.current_difficulty }) ∧
    (s.answers.length < 3 → (get_next_question db sid user).1 = db) ∧
    specAdaptiveTier
      [("a", ⟨"x", true, 1, 1⟩), ("b", ⟨"x", true, 1, 2⟩), ("c", ⟨"x", true, 1, 3⟩)]
      "medium" = "hard" ∧
    specAdaptiveTier
      [("a", ⟨"x", false, 1, 1⟩), ("b", ⟨"x", false, 1, 2⟩), ("c", ⟨"x", true, 1, 3⟩)]
      "medium" = "easy" := by
  have hst' : (s.status != "in_progress") = false := by
    rw [hst]; rfl
  have hnext : (get_next_question db sid user).1 = adjust_adaptive_difficulty db sid s := by
    unfold get_next_question
    rw [hs]
    dsimp only
    rw [hst']
    simp only [Bool.false_eq_true, if_false]
    rw [hq]
    dsimp only
    rw [hr]
    dsimp only
    rw [if_pos had]
  refine ⟨?_, ?_, ?_, ?_⟩
  · intro h3
    rw [hnext]
    unfold adjust_adaptive_difficulty
    rw [if_pos h3]
    dsimp only
    by_cases hne : adaptiveNewDifficulty s.answers s.current_difficulty ≠ s.current_difficulty
    · rw [if_pos hne]
      rw [findSession_update_difficulty db sid user s _ hs]
      rw [adaptiveNewDifficulty_eq_spec]
    · rw [if_neg hne]
      push_neg at hne
      rw [← adaptiveNewDifficulty_eq_spec, hne]
      rw [hs]
  · intro hlt
    rw [hnext]
    unfold adjust_adaptive_difficulty
    rw [if_neg (by omega)]
  · rw [← adaptiveNewDifficulty_eq_spec]
    unfold adaptiveNewDifficulty
    norm_num
  · rw [← adaptiveNewDifficulty_eq_spec]
    unfold adaptiveNewDifficulty
    norm_num

/-- C5 witness: `next()` on `C5dbTTT` (medium, last 3 correct) stores the
tier given by the spec table, i.e. `hard`. -/
theorem C5_adaptive_difficulty_witness :
    findSession (get_next_question C5dbTTT "s5" "u").1 "s5" "u" =
      some { C5sessionTTT with
        current_difficulty :=
          specAdaptiveTier C5sessionTTT.answers C5sessionTTT.current_difficulty } :=
  (C5_adaptive_difficulty C5dbTTT "s5" "u" C5sessionTTT "D" (format_question none qD)
    rfl rfl rfl rfl rfl).1 (by decide)
